import Mathlib

/-!
Shallow embedding of the Bezier-spline and RRT-service code of the
`multi_drone_inspection` repository, together with proofs settling the
claims about it.

Conventions of the embedding:
* `Eigen::Vector3f` is modelled as a triple of rationals (`Vec3`).  Every
  concrete input used below is exactly representable as a single-precision
  float and every arithmetic step performed on it is exact in floats, so at
  those inputs the rational model agrees with the C++ float computation.
* C++ `std::vector` indexing is modelled with `List.get?`: an out-of-bounds
  access (undefined behaviour in C++) surfaces as `none`.
* The truncating conversions of C++ (`(int)` cast of a float, `int += float`)
  are modelled by `ratTrunc`, truncation toward zero.
* The Euclidean norm of a `Vector3f` difference is irrational in general, so
  the metric used by `generate_distance_lut` is an explicit parameter
  `dist : Vec3 → Vec3 → ℚ`; no theorem below depends on its values, because
  in every state the claims reach, the loop that consumes it runs over an
  empty or value-irrelevant range.
-/

namespace MDI

/-- 3-D vector over ℚ, modelling `Eigen::Vector3f`. -/
structure Vec3 where
  x : ℚ
  y : ℚ
  z : ℚ
deriving DecidableEq, Repr

instance : Zero Vec3 := ⟨⟨0, 0, 0⟩⟩

instance : Add Vec3 := ⟨fun a b => ⟨a.x + b.x, a.y + b.y, a.z + b.z⟩⟩

/-- Scalar multiplication `w * v` as used in `BezierSpline::f`. -/
def Vec3.smul (a : ℚ) (v : Vec3) : Vec3 := ⟨a * v.x, a * v.y, a * v.z⟩

/-- Truncation toward zero, the semantics of C++ `(int)` conversion from a
floating value (and of `int += float`). -/
def ratTrunc (q : ℚ) : ℤ := if 0 ≤ q then ⌊q⌋ else ⌈q⌉

/-- Modelled from the spec: `mdi::utils::binomial_coefficient` is declared in
`mdi/utils`, which is not part of the sources at hand; the spec's Bernstein
formula (`binomial(n,i)`) fixes it as the standard binomial coefficient. -/
def binomial_coefficient (n k : ℕ) : ℕ := Nat.choose n k

/-- The mutable state of a `BezierSpline` object (all its data members). -/
structure BezierSpline where
  input_points : List Vec3
  resolution : ℤ
  size : ℕ
  binomial_lut : List ℚ
  spline_points : List Vec3
  distance_lut : List ℚ
deriving DecidableEq, Repr

/-- The state of a freshly default-initialised `BezierSpline` object, before
`generate_spline` has run (all vectors empty). -/
def BezierSpline.initial : BezierSpline :=
  { input_points := [], resolution := 0, size := 0,
    binomial_lut := [], spline_points := [], distance_lut := [] }

/-- `BezierSpline::generate_binomial_lut`: pushes `binomial_coefficient(size, i)`
for `i = 0 .. size-1` onto the existing `binomial_lut` — the C++ loop uses
`push_back` and never clears the vector, so the new entries are appended. -/
def BezierSpline.generate_binomial_lut (s : BezierSpline) : BezierSpline :=
  { s with binomial_lut :=
      (s.binomial_lut ++ (List.range s.size).map
        (fun i => (binomial_coefficient s.size i : ℚ))) }

/-- `BezierSpline::generate_distance_lut`: pushes 0, then for
`t = 1 .. spline_points.size()-1` accumulates `diff.norm()` into the C++ `int`
variable `arc_length_sum` (hence the truncation at every step) and pushes the
running value.  `push_back` again appends to whatever `distance_lut` already
holds.  `dist p q` stands for `(p - q).norm()`. -/
def BezierSpline.generate_distance_lut (dist : Vec3 → Vec3 → ℚ)
    (s : BezierSpline) : BezierSpline :=
  let step : ℤ × List ℚ → ℕ → ℤ × List ℚ := fun acc t =>
    let sum := ratTrunc ((acc.1 : ℚ) + dist (s.spline_points.getD (t - 1) 0)
      (s.spline_points.getD t 0))
    (sum, acc.2 ++ [(sum : ℚ)])
  let start : ℤ × List ℚ := (0, s.distance_lut ++ [(0 : ℚ)])
  { s with distance_lut :=
      ((List.range s.spline_points.length).drop 1 |>.foldl step start).2 }

/-- `BezierSpline::f`: Σ_{i=0}^{size-1} `binomial_lut[i] * t^i * (1-t)^(size-i)`
·`input_points[i]`.  Note the exponent is `size - i`, exactly as in the source
(`pow(1 - t, this->size - i)`), not `size - 1 - i`. -/
def BezierSpline.f (s : BezierSpline) (t : ℚ) : Vec3 :=
  (List.range s.size).foldl
    (fun acc i =>
      let w := s.binomial_lut.getD i 0 * t ^ i * (1 - t) ^ (s.size - i)
      acc + Vec3.smul w (s.input_points.getD i 0))
    0

/-- `BezierSpline::generate_spline`: stores the inputs, regenerates the
binomial LUT only when its length differs from the new point count, then runs
`generate_distance_lut` (before any new sample is pushed, exactly as in the
source), then appends `f(t/resolution)` for `t = 0 .. resolution` to
`spline_points` (the loop body runs only when `resolution ≥ 0`). -/
def BezierSpline.generate_spline (dist : Vec3 → Vec3 → ℚ) (s : BezierSpline)
    (points : List Vec3) (resolution : ℤ) : BezierSpline :=
  let s1 := { s with input_points := points, resolution := resolution,
                     size := points.length }
  let s2 := if s1.binomial_lut.length ≠ s1.size
            then s1.generate_binomial_lut else s1
  let s3 := s2.generate_distance_lut dist
  { s3 with spline_points :=
      (s3.spline_points ++ (List.range (resolution + 1).toNat).map
        (fun t => s3.f ((t : ℚ) / (resolution : ℚ)))) }

/-- The assertion `assert(points.size() == binomial_lut.size())` at the top of
`generate_spline`, evaluated on the state the call produced (no later step of
the call changes either length). -/
def BezierSpline.generate_spline_assert_ok (s : BezierSpline) : Bool :=
  s.size == s.binomial_lut.length

/-- The constructor `BezierSpline::BezierSpline(points, resolution)`: runs
`generate_spline` on a default-initialised object. -/
def BezierSpline.construct (dist : Vec3 → Vec3 → ℚ) (points : List Vec3)
    (resolution : ℤ) : BezierSpline :=
  BezierSpline.initial.generate_spline dist points resolution

/-- `BezierSpline::get_point_at_time`: `spline_points[(int)(resolution * time)]`
(the `assert(time <= 1.0 && time >= 0)` is a precondition of the callers used
below). -/
def BezierSpline.get_point_at_time (s : BezierSpline) (time : ℚ) : Option Vec3 :=
  s.spline_points.get? (ratTrunc ((s.resolution : ℚ) * time)).toNat

/-- The loop of `BezierSpline::get_time_idx`, iterating `t_idx` from its
current value while `t_idx < resolution` (`fuel` counts the remaining
iterations), carrying `found_t_idx`.  A read of `distance_lut` outside its
bounds — including the `distance_lut[t_idx - 1]` read with `t_idx = 0`, which
accesses index −1 — is undefined behaviour in C++ and surfaces as `none`. -/
def get_time_idx_loop (lut : List ℚ) (d : ℚ) :
    (fuel : ℕ) → (t_idx : ℕ) → (found : ℕ) → Option ℕ
  | 0, _, found => some found
  | fuel + 1, t_idx, _found =>
    match lut.get? t_idx with
    | none => none
    | some v =>
      if v > d then
        match t_idx with
        | 0 => none
        | t' + 1 =>
          match lut.get? t' with
          | none => none
          | some v' => some (if |v - d| < |v' - d| then t_idx else t')
      else get_time_idx_loop lut d fuel (t_idx + 1) t_idx

/-- `BezierSpline::get_time_idx`: the loop above starting from `t_idx = 0`,
`found_t_idx = 0`, running while `t_idx < resolution`. -/
def BezierSpline.get_time_idx (s : BezierSpline) (d : ℚ) : Option ℕ :=
  get_time_idx_loop s.distance_lut d s.resolution.toNat 0 0

/-- `BezierSpline::get_point_at_distance`: looks up the time index, returns the
last sample when it equals `resolution`, and otherwise interpolates between
`distance_lut[t_idx]` and `distance_lut[t_idx + 1]` and re-evaluates `f`. -/
def BezierSpline.get_point_at_distance (s : BezierSpline) (d : ℚ) : Option Vec3 :=
  match s.get_time_idx d with
  | none => none
  | some t_idx =>
    if (t_idx : ℤ) = s.resolution then s.spline_points.get? t_idx
    else
      match s.distance_lut.get? (t_idx + 1), s.distance_lut.get? t_idx with
      | some dnext, some dcur =>
        let distance_diff := dnext - dcur
        let distance_diff_given := dnext - d
        let diff_frac := distance_diff_given / distance_diff
        some (s.f (((t_idx : ℚ) + diff_frac) / (s.resolution : ℚ)))
      | _, _ => none

/-- The Bernstein-basis curve point exactly as the spec words it: for `n+1`
control points, `point(t) = Σ_{i=0}^{n} C(n,i) · t^i · (1−t)^(n−i) · P_i`.
This is the spec-side definition used to compare against `BezierSpline.f`. -/
def specBernsteinPoint (points : List Vec3) (t : ℚ) : Vec3 :=
  let n := points.length - 1
  (List.range points.length).foldl
    (fun acc i =>
      acc + Vec3.smul ((Nat.choose n i : ℚ) * t ^ i * (1 - t) ^ (n - i))
        (points.getD i 0))
    0

/-- The all-zero stand-in metric used to instantiate the `dist` parameter in
concrete evaluations; the states those evaluations inspect never depend on the
metric's values. -/
def dist0 : Vec3 → Vec3 → ℚ := fun _ _ => 0

/-- The three control points of the spec's Scenario A. -/
def scenarioAPoints : List Vec3 := [⟨0, 0, 0⟩, ⟨1, 2, 0⟩, ⟨2, 0, 0⟩]

/-- The spline Scenario A constructs: those points at resolution 10. -/
def scenarioASpline : BezierSpline := BezierSpline.construct dist0 scenarioAPoints 10

/-! ## Embedding of `rrt_service.cpp`

The RRT tree itself (`mdi::rrt::RRT`) and the gain evaluator
(`mdi::gain_of_fov`) are declared in headers that are not among the sources at
hand; the node file only drives them.  They therefore enter the embedding as
abstract parameters: `created i` is the node (if any) that the `i`-th `grow1()`
call inserts — `grow1()` inserts at most one node and fires the registered
callback for it — and `gain p` is the value `gain_of_fov` returns for the FoV
the callback derives from a node at position `p` (the request's target, FoV
angles, weights and transform are fixed for the whole run and are absorbed
into `gain`).  The backtracking queries are likewise abstract functions of the
node they are applied to.  The handler logic proved about below — the loop,
the callback bookkeeping, the response assembly — is exactly the code of
`rrt_service.cpp`. -/

/-- `geometry_msgs::Point`; ROS messages default-initialise numeric fields to
zero, so a default-constructed `Point` is the origin. -/
structure Point3 where
  x : ℚ
  y : ℚ
  z : ℚ
deriving DecidableEq, Repr

/-- The occupancy map's internals are out of scope (only its presence matters
to the handlers), so it is modelled as a unit type: `Option Octomap` is the
result of `call_get_environment_octomap` (`none` = the fetch returned no data,
i.e. a null pointer). -/
def Octomap : Type := Unit

/-- `waypoints_to_geometry_msgs_points`: the source first constructs
`std::vector<geometry_msgs::Point>(wps.size())` — `wps.size()` default
(all-zero) `Point`s — and then `std::transform`s into a `back_inserter` of
that vector, appending the converted waypoints after the zero prefix. -/
def waypoints_to_geometry_msgs_points (wps : List Vec3) : List Point3 :=
  List.replicate wps.length ⟨0, 0, 0⟩ ++ wps.map (fun p => ⟨p.x, p.y, p.z⟩)

/-- Observable trace of one `rrt_find_path_handler` invocation. -/
structure RrtFindPathTrace where
  assigned_octomap : Bool
  ran_rrt : Bool
  waypoints : List Point3
  success : Bool
deriving DecidableEq, Repr

/-- `rrt_find_path_handler`: builds the tree, assigns the octomap only when the
fetch produced one, then calls `rrt.run()` unconditionally (there is no abort
path for a null map); on a successful run it converts the returned path into
the response.  `run_result` is the abstract outcome of `rrt.run()`. -/
def rrt_find_path_handler (octomap_fetch : Option Octomap)
    (run_result : Option (List Vec3)) : RrtFindPathTrace :=
  { assigned_octomap := octomap_fetch.isSome
    ran_rrt := true
    waypoints := match run_result with
      | some path => waypoints_to_geometry_msgs_points path
      | none => []
    success := run_result.isSome }

/-- The locals of `nbv_handler` that the node-created callback mutates:
`best_gain` (initialised to −∞, modelled as `none`), `best_point`, and
`found_suitable_nbv`. -/
structure NbvCbState where
  best_gain : Option ℚ
  best_point : Vec3
  found_suitable_nbv : Bool
deriving DecidableEq, Repr

/-- The body of the callback registered with
`register_cb_for_event_on_new_node_created`, run once per created node: update
the best gain/point on a strictly better gain, then set `found_suitable_nbv`
when `gain >= gain_of_interest_threshold`. -/
def nbv_on_node_created (gain : Vec3 → ℚ) (threshold : ℚ)
    (st : NbvCbState) (new_point : Vec3) : NbvCbState :=
  let g := gain new_point
  let better := match st.best_gain with
    | none => true
    | some b => decide (g > b)
  let st1 := if better then { st with best_gain := some g, best_point := new_point }
             else st
  if g ≥ threshold then { st1 with found_suitable_nbv := true } else st1

/-- The `for` loop of `nbv_handler`: iterate `i` while `i < max_iterations`
(`fuel` counts the remaining iterations), each iteration calling `grow1()`
(which fires the callback when it creates a node) and breaking as soon as
`found_suitable_nbv` holds.  Returns the number of `grow1()` calls made, the
final callback-state, the newest created node, and whether the loop broke. -/
def nbv_grow_loop (created : ℕ → Option Vec3) (gain : Vec3 → ℚ) (threshold : ℚ) :
    (fuel : ℕ) → (i : ℕ) → NbvCbState → Option Vec3 →
    ℕ × NbvCbState × Option Vec3 × Bool
  | 0, _, st, newest => (0, st, newest, false)
  | fuel + 1, i, st, newest =>
    match created i with
    | some p =>
      if (nbv_on_node_created gain threshold st p).found_suitable_nbv then
        (1, nbv_on_node_created gain threshold st p, some p, true)
      else
        ((nbv_grow_loop created gain threshold fuel (i + 1)
            (nbv_on_node_created gain threshold st p) (some p)).1 + 1,
         (nbv_grow_loop created gain threshold fuel (i + 1)
            (nbv_on_node_created gain threshold st p) (some p)).2)
    | none =>
      if st.found_suitable_nbv then (1, st, newest, true)
      else
        ((nbv_grow_loop created gain threshold fuel (i + 1) st newest).1 + 1,
         (nbv_grow_loop created gain threshold fuel (i + 1) st newest).2)

/-- Observable trace of one `nbv_handler` invocation.  `fallback_target` is the
argument the handler passed to `get_waypoints_from_nearsest_node_to`, when the
fallback branch ran. -/
structure NbvTrace where
  assigned_octomap : Bool
  grow_calls : ℕ
  found_flag : Bool
  waypoints : List Point3
  success : Bool
  fallback_target : Option Vec3
deriving DecidableEq, Repr

/-- `nbv_handler`: fetches the octomap (assigning it only when non-null — a
null map does not abort the run), grows the tree with early exit on
`found_suitable_nbv` (backtracking the newest node into the response), and
when no sufficient gain was found falls back to backtracking from the node
nearest to `best_point`.  `backtrack_newest` abstracts
`rrt.waypoints_from_newest_node()` (a function of the newest node, `none`
when the tree has no path to give) and `backtrack_nearest_to` abstracts
`rrt.get_waypoints_from_nearsest_node_to`. -/
def nbv_handler (octomap_fetch : Option Octomap) (max_iterations : ℕ)
    (created : ℕ → Option Vec3) (gain : Vec3 → ℚ) (threshold : ℚ)
    (backtrack_newest : Option Vec3 → Option (List Vec3))
    (backtrack_nearest_to : Vec3 → Option (List Vec3)) : NbvTrace :=
  let st0 : NbvCbState := ⟨none, ⟨0, 0, 0⟩, false⟩
  let r := nbv_grow_loop created gain threshold max_iterations 0 st0 none
  let calls := r.1
  let stf := r.2.1
  let newest := r.2.2.1
  let broke := r.2.2.2
  let r1 : NbvTrace :=
    if broke then
      match backtrack_newest newest with
      | some path =>
        { assigned_octomap := octomap_fetch.isSome, grow_calls := calls,
          found_flag := true,
          waypoints := waypoints_to_geometry_msgs_points path,
          success := true, fallback_target := none }
      | none =>
        { assigned_octomap := octomap_fetch.isSome, grow_calls := calls,
          found_flag := false, waypoints := [],
          success := false, fallback_target := none }
    else
      { assigned_octomap := octomap_fetch.isSome, grow_calls := calls,
        found_flag := false, waypoints := [],
        success := false, fallback_target := none }
  if r1.success then r1
  else
    match backtrack_nearest_to stf.best_point with
    | some path =>
      { r1 with waypoints := waypoints_to_geometry_msgs_points path,
                found_flag := false, fallback_target := some stf.best_point }
    | none => { r1 with fallback_target := some stf.best_point }

/-- The nodes the callback sees during `max_iterations` iterations, in
creation order (iterations whose `grow1()` call creates no node contribute
nothing). -/
def nodes_created (created : ℕ → Option Vec3) (max_iterations : ℕ) : List Vec3 :=
  (List.range max_iterations).filterMap created

theorem mem_nodes_created {created : ℕ → Option Vec3} {n : ℕ} {p : Vec3} :
    p ∈ nodes_created created n ↔ ∃ k, k < n ∧ created k = some p := by
  simp [nodes_created, List.mem_filterMap, List.mem_range]

/-! ### Behaviour of the node-created callback -/

theorem cb_found_keep (gain : Vec3 → ℚ) (threshold : ℚ) (st : NbvCbState)
    (p : Vec3) (h : gain p < threshold) :
    (nbv_on_node_created gain threshold st p).found_suitable_nbv
      = st.found_suitable_nbv := by
  have hnot : ¬ (gain p ≥ threshold) := not_le.mpr h
  simp only [nbv_on_node_created, if_neg hnot]
  split <;> rfl

theorem cb_found_set (gain : Vec3 → ℚ) (threshold : ℚ) (st : NbvCbState)
    (p : Vec3) (h : threshold ≤ gain p) :
    (nbv_on_node_created gain threshold st p).found_suitable_nbv = true := by
  simp only [nbv_on_node_created, if_pos h]

theorem cb_best_update (gain : Vec3 → ℚ) (threshold : ℚ) (st : NbvCbState)
    (p : Vec3)
    (h : st.best_gain = none ∨ ∃ b, st.best_gain = some b ∧ b < gain p) :
    (nbv_on_node_created gain threshold st p).best_gain = some (gain p) ∧
    (nbv_on_node_created gain threshold st p).best_point = p := by
  have hb : (match st.best_gain with
      | none => true
      | some b => decide (gain p > b)) = true := by
    rcases h with h | ⟨b, hb, hlt⟩
    · rw [h]
    · rw [hb]; simpa using hlt
  simp only [nbv_on_node_created, hb, if_true]
  split <;> exact ⟨rfl, rfl⟩

theorem cb_best_keep (gain : Vec3 → ℚ) (threshold : ℚ) (st : NbvCbState)
    (p : Vec3) (b : ℚ) (hb : st.best_gain = some b) (h : gain p ≤ b) :
    (nbv_on_node_created gain threshold st p).best_gain = st.best_gain ∧
    (nbv_on_node_created gain threshold st p).best_point = st.best_point := by
  have hnb : (match st.best_gain with
      | none => true
      | some b => decide (gain p > b)) = false := by
    rw [hb]; simpa using not_lt.mpr h
  simp only [nbv_on_node_created, hnb, if_false]
  split <;> exact ⟨rfl, rfl⟩

/-! ### Behaviour of folding the callback over a run of created nodes -/

theorem foldl_found_keep (gain : Vec3 → ℚ) (threshold : ℚ) :
    ∀ (l : List Vec3) (st : NbvCbState),
    (∀ p ∈ l, gain p < threshold) →
    (l.foldl (nbv_on_node_created gain threshold) st).found_suitable_nbv
      = st.found_suitable_nbv
  | [], st, _ => rfl
  | p :: l, st, h => by
    rw [List.foldl_cons,
      foldl_found_keep gain threshold l _ (fun q hq => h q (List.mem_cons_of_mem _ hq)),
      cb_found_keep gain threshold st p (h p (List.mem_cons_self _ _))]

theorem foldl_best_keep (gain : Vec3 → ℚ) (threshold : ℚ) (b : ℚ) :
    ∀ (l : List Vec3) (st : NbvCbState),
    st.best_gain = some b →
    (∀ p ∈ l, gain p ≤ b) →
    (l.foldl (nbv_on_node_created gain threshold) st).best_gain = some b ∧
    (l.foldl (nbv_on_node_created gain threshold) st).best_point = st.best_point
  | [], _, hb, _ => ⟨hb, rfl⟩
  | p :: l, st, hb, h => by
    have hp := cb_best_keep gain threshold st p b hb (h p (List.mem_cons_self _ _))
    have ih := foldl_best_keep gain threshold b l
      (nbv_on_node_created gain threshold st p) (hp.1.trans hb)
      (fun q hq => h q (List.mem_cons_of_mem _ hq))
    exact ⟨by rw [List.foldl_cons]; exact ih.1,
           by rw [List.foldl_cons, ih.2, hp.2]⟩

theorem foldl_best_inv (gain : Vec3 → ℚ) (threshold gq : ℚ) :
    ∀ (l : List Vec3) (st : NbvCbState),
    (∀ p ∈ l, gain p < gq) →
    (st.best_gain = none ∨ ∃ b, st.best_gain = some b ∧ b < gq) →
    ((l.foldl (nbv_on_node_created gain threshold) st).best_gain = none ∨
     ∃ b, (l.foldl (nbv_on_node_created gain threshold) st).best_gain = some b
       ∧ b < gq)
  | [], _, _, hst => hst
  | p :: l, st, h, hst => by
    rw [List.foldl_cons]
    refine foldl_best_inv gain threshold gq l _
      (fun q hq => h q (List.mem_cons_of_mem _ hq)) ?_
    rcases hst with hn | ⟨b, hb, hlt⟩
    · have := cb_best_update gain threshold st p (Or.inl hn)
      exact Or.inr ⟨gain p, this.1, h p (List.mem_cons_self _ _)⟩
    · by_cases hc : gain p ≤ b
      · have := cb_best_keep gain threshold st p b hb hc
        exact Or.inr ⟨b, this.1.trans hb, hlt⟩
      · have := cb_best_update gain threshold st p
          (Or.inr ⟨b, hb, not_le.mp hc⟩)
        exact Or.inr ⟨gain p, this.1, h p (List.mem_cons_self _ _)⟩

/-- Folding the callback over a first-seen-maximiser decomposition
`l1 ++ q :: l2` (everything before `q` strictly below `gain q`, everything
after at most `gain q`) ends with `best_point = q`. -/
theorem foldl_first_seen_max (gain : Vec3 → ℚ) (threshold : ℚ) (q : Vec3)
    (l1 l2 : List Vec3) (st : NbvCbState)
    (h1 : ∀ p ∈ l1, gain p < gain q)
    (h2 : ∀ p ∈ l2, gain p ≤ gain q)
    (hst : st.best_gain = none ∨ ∃ b, st.best_gain = some b ∧ b < gain q) :
    ((l1 ++ q :: l2).foldl (nbv_on_node_created gain threshold) st).best_point
      = q := by
  rw [List.foldl_append, List.foldl_cons]
  have hinv := foldl_best_inv gain threshold (gain q) l1 st h1 hst
  have hq := cb_best_update gain threshold
    (l1.foldl (nbv_on_node_created gain threshold) st) q hinv
  have := foldl_best_keep gain threshold (gain q) l2 _ hq.1 h2
  rw [this.2, hq.2]

/-! ### Behaviour of the grow loop -/

/-- When no created node's gain reaches the threshold, the loop never breaks:
it makes exactly `fuel` `grow1()` calls and its final callback state is the
fold of the callback over the created nodes in order. -/
theorem nbv_grow_loop_no_found (created : ℕ → Option Vec3) (gain : Vec3 → ℚ)
    (threshold : ℚ) :
    ∀ (fuel i : ℕ) (st : NbvCbState) (newest : Option Vec3),
    st.found_suitable_nbv = false →
    (∀ k, k < fuel → ∀ p, created (i + k) = some p → gain p < threshold) →
    ∃ nw, nbv_grow_loop created gain threshold fuel i st newest =
      (fuel,
       (((List.range fuel).filterMap (fun k => created (i + k))).foldl
         (nbv_on_node_created gain threshold) st),
       nw, false)
  | 0, _, st, newest, _, _ => ⟨newest, rfl⟩
  | fuel + 1, i, st, newest, hfound, h => by
    have hfun : ((fun k => created (i + k)) ∘ Nat.succ)
        = (fun k => created ((i + 1) + k)) :=
      funext fun k => congrArg created (by omega)
    have hrange : (List.range (fuel + 1)).filterMap (fun k => created (i + k))
        = (created i).toList ++
          (List.range fuel).filterMap (fun k => created ((i + 1) + k)) := by
      rw [List.range_succ_eq_map, List.filterMap_cons, List.filterMap_map,
        hfun, Nat.add_zero]
      cases created i <;> rfl
    have hshift : ∀ k, k < fuel → ∀ p, created ((i + 1) + k) = some p →
        gain p < threshold := by
      intro k hk p hp
      refine h (k + 1) (Nat.succ_lt_succ hk) p ?_
      rw [show i + (k + 1) = (i + 1) + k by omega]
      exact hp
    cases hc : created i with
    | none =>
      have ih := nbv_grow_loop_no_found created gain threshold fuel (i + 1)
        st newest hfound hshift
      obtain ⟨nw, hih⟩ := ih
      refine ⟨nw, ?_⟩
      simp only [nbv_grow_loop, hc, hfound, if_neg (Bool.false_ne_true), hih]
      rw [hrange, hc]
      simp only [Option.toList, List.nil_append]
    | some p =>
      have hp : gain p < threshold := by
        refine h 0 (Nat.succ_pos _) p ?_; simpa using hc
      have hfound' : (nbv_on_node_created gain threshold st p).found_suitable_nbv
          = false := by rw [cb_found_keep gain threshold st p hp, hfound]
      have ih := nbv_grow_loop_no_found created gain threshold fuel (i + 1)
        (nbv_on_node_created gain threshold st p) (some p) hfound' hshift
      obtain ⟨nw, hih⟩ := ih
      refine ⟨nw, ?_⟩
      simp only [nbv_grow_loop, hc, hfound', if_neg (Bool.false_ne_true), hih]
      rw [hrange, hc]
      simp only [Option.toList, List.cons_append, List.nil_append,
        List.foldl_cons]

/-- When iteration `i + j` creates the first node whose gain reaches the
threshold, the loop breaks right after that iteration: `j + 1` `grow1()`
calls, the newest node is that node, and the final state has the found flag
set. -/
theorem nbv_grow_loop_found (created : ℕ → Option Vec3) (gain : Vec3 → ℚ)
    (threshold : ℚ) (j : ℕ) :
    ∀ (fuel i : ℕ) (st : NbvCbState) (newest : Option Vec3) (q : Vec3),
    j < fuel →
    st.found_suitable_nbv = false →
    (∀ k, k < j → ∀ p, created (i + k) = some p → gain p < threshold) →
    created (i + j) = some q →
    threshold ≤ gain q →
    ∃ stf, nbv_grow_loop created gain threshold fuel i st newest =
      (j + 1, stf, some q, true) ∧ stf.found_suitable_nbv = true := by
  induction j with
  | zero =>
    intro fuel i st newest q hj _hfound _h hq hg
    obtain ⟨fuel', rfl⟩ : ∃ f, fuel = f + 1 := ⟨fuel - 1, by omega⟩
    have hq' : created i = some q := by simpa using hq
    have hset := cb_found_set gain threshold st q hg
    refine ⟨nbv_on_node_created gain threshold st q, ?_, hset⟩
    simp only [nbv_grow_loop, hq', hset, if_true]
  | succ j ih =>
    intro fuel i st newest q hj hfound h hq hg
    obtain ⟨fuel', rfl⟩ : ∃ f, fuel = f + 1 := ⟨fuel - 1, by omega⟩
    have hj' : j < fuel' := Nat.lt_of_succ_lt_succ hj
    have hshift : ∀ k, k < j → ∀ p, created ((i + 1) + k) = some p →
        gain p < threshold := by
      intro k hk p hp
      refine h (k + 1) (Nat.succ_lt_succ hk) p ?_
      rw [show i + (k + 1) = (i + 1) + k by omega]
      exact hp
    have hq' : created ((i + 1) + j) = some q := by
      rw [show (i + 1) + j = i + (j + 1) by omega]
      exact hq
    cases hc : created i with
    | none =>
      obtain ⟨stf, hih, hstf⟩ := ih fuel' (i + 1) st newest q hj' hfound
        hshift hq' hg
      refine ⟨stf, ?_, hstf⟩
      simp only [nbv_grow_loop, hc, hfound, if_neg (Bool.false_ne_true), hih]
    | some p =>
      have hp : gain p < threshold := by
        refine h 0 (Nat.succ_pos _) p ?_; simpa using hc
      have hfound' : (nbv_on_node_created gain threshold st p).found_suitable_nbv
          = false := by rw [cb_found_keep gain threshold st p hp, hfound]
      obtain ⟨stf, hih, hstf⟩ := ih fuel' (i + 1)
        (nbv_on_node_created gain threshold st p) (some p) q
        hj' hfound' hshift hq' hg
      refine ⟨stf, ?_, hstf⟩
      simp only [nbv_grow_loop, hc, hfound', if_neg (Bool.false_ne_true), hih]

/-! ## Claim theorems -/

/-- Claim C1: with control points (0,0,0),(1,2,0),(2,0,0) and resolution 10,
`get_point_at_time(0.5)` is claimed to equal the Bernstein sum
0.25·P0+0.5·P1+0.25·P2 = (1,1,0).  The code instead weights term `i` by
`binomial(size,i)·t^i·(1−t)^(size−i)` with `size = 3` (not degree 2), so it
returns (9/8, 3/4, 0), which differs from the Bernstein value (1,1,0) the
claim and the spec's formula give (all arithmetic here is float-exact). -/
theorem C1_point_at_half_is_not_bernstein :
    scenarioASpline.get_point_at_time (1/2) = some ⟨9/8, 3/4, 0⟩ ∧
    specBernsteinPoint scenarioAPoints (1/2) = ⟨1, 1, 0⟩ ∧
    (⟨9/8, 3/4, 0⟩ : Vec3) ≠ ⟨1, 1, 0⟩ := by
  refine ⟨?_, ?_, ?_⟩
  · with_unfolding_all rfl
  · with_unfolding_all rfl
  · with_unfolding_all decide

/-- Claim C2: `get_point_at_time(0)` does return the first control point, but
`get_point_at_time(1)` returns the zero vector, not the last control point:
every term of `BezierSpline::f(1)` carries a factor `(1-1)^(size-i)` with
`size - i ≥ 1`.  Shown on the Scenario A control points, whose last point is
(2,0,0), far outside any floating tolerance of (0,0,0). -/
theorem C2_point_at_time_one_is_zero_vector :
    scenarioASpline.get_point_at_time 0 = some ⟨0, 0, 0⟩ ∧
    scenarioASpline.get_point_at_time 1 = some ⟨0, 0, 0⟩ ∧
    scenarioAPoints.getLast? = some ⟨2, 0, 0⟩ ∧
    (⟨0, 0, 0⟩ : Vec3) ≠ ⟨2, 0, 0⟩ := by
  refine ⟨?_, ?_, ?_, ?_⟩
  · with_unfolding_all rfl
  · with_unfolding_all rfl
  · decide
  · with_unfolding_all decide

/-- Claim C3: after construction the arc-length table should have one entry
per sampled spline point (resolution+1 = 11) and end at the total arc length.
But `generate_spline` calls `generate_distance_lut` before pushing any sample
into `spline_points`, so the table is built from an empty sample list: it is
`[0]`, length 1, while 11 samples exist.  (Monotonicity and the 0 first entry
hold vacuously of `[0]`.) -/
theorem C3_distance_lut_shorter_than_samples :
    scenarioASpline.distance_lut = [(0 : ℚ)] ∧
    scenarioASpline.spline_points.length = 11 := by
  with_unfolding_all decide

/-- Claim C4: `get_point_at_distance(0)` should return the first spline point
(which exists: sample 0 is (0,0,0)).  Instead, because `distance_lut` is `[0]`
after construction, the search loop in `get_time_idx` reads
`distance_lut[1]` out of bounds on its second iteration (undefined behaviour,
surfaced as `none` by the embedding), so no bracketing interval can be
located for any non-negative distance. -/
theorem C4_point_at_distance_zero_reads_out_of_bounds :
    scenarioASpline.get_time_idx 0 = none ∧
    scenarioASpline.get_point_at_distance 0 = none ∧
    scenarioASpline.spline_points.get? 0 = some ⟨0, 0, 0⟩ := by
  refine ⟨?_, ?_, ?_⟩
  · with_unfolding_all rfl
  · with_unfolding_all rfl
  · with_unfolding_all rfl

/-- Claim C8 counterexample: constructing a spline from an empty control-point
list (with resolution 10) is not rejected — the constructor has no validation
and no error outcome; construction runs to completion and fills in all
resolution+1 samples. -/
theorem C8_counterexample_empty_points_accepted :
    (BezierSpline.construct dist0 [] 10).spline_points.length = 11 ∧
    (BezierSpline.construct dist0 [] 10).distance_lut = [(0 : ℚ)] := by
  with_unfolding_all decide

/-- Claim C8 amended: spline construction performs no input validation and has
no error outcome — whatever the metric, an empty control-point list is
accepted (construction proceeds and fills all resolution+1 samples with the
zero vector), and a non-positive resolution is accepted as well (the sampling
loop simply runs zero times). -/
theorem C8_construction_never_validates (dist : Vec3 → Vec3 → ℚ) :
    (BezierSpline.construct dist [] 10).spline_points
      = List.replicate 11 (0 : Vec3) ∧
    (BezierSpline.construct dist [] (-1)).spline_points = [] := by
  constructor
  · with_unfolding_all rfl
  · with_unfolding_all rfl

/-- The state after the first construction of claim C9's scenario: two control
points at resolution 2. -/
def C9firstBuild : BezierSpline :=
  BezierSpline.construct dist0 [⟨0, 0, 0⟩, ⟨1, 0, 0⟩] 2

/-- The state after rebuilding claim C9's spline with three control points. -/
def C9rebuild : BezierSpline :=
  C9firstBuild.generate_spline dist0 [⟨0, 0, 0⟩, ⟨1, 0, 0⟩, ⟨2, 0, 0⟩] 2

/-- Claim C9: after a rebuild with a different control-point count the
binomial table should have size equal to the new count (3).
`generate_binomial_lut` appends without clearing, so after rebuilding a
2-point spline with 3 points the table is `[1,2,1,3,3]` (size 5), and the
code's own `assert(points.size() == binomial_lut.size())` fails. -/
theorem C9_rebuild_breaks_binomial_lut :
    C9firstBuild.binomial_lut = [(1 : ℚ), 2] ∧
    C9rebuild.size = 3 ∧
    C9rebuild.binomial_lut = [(1 : ℚ), 2, 1, 3, 3] ∧
    C9rebuild.generate_spline_assert_ok = false := by
  with_unfolding_all decide

/-- Claim C10: `waypoints_to_geometry_msgs_points` should be an element-wise
conversion of the same length.  The source pre-sizes the output vector with
`wps.size()` default (zero) points and then appends the converted points with
a `back_inserter`, so a single waypoint (1,2,3) yields the two-element list
[(0,0,0),(1,2,3)] instead of [(1,2,3)]. -/
theorem C10_zero_prefix_in_converted_waypoints :
    waypoints_to_geometry_msgs_points [⟨1, 2, 3⟩]
      = [⟨0, 0, 0⟩, ⟨1, 2, 3⟩] ∧
    (waypoints_to_geometry_msgs_points [⟨1, 2, 3⟩]).length = 2 := by
  with_unfolding_all decide

/-- Claim C5 counterexample: when the octomap fetch returns null, the claim
says the run aborts immediately with no tree growth.  Instead the planning
handler still invokes `rrt.run()` (`ran_rrt = true` even with `none` fetched),
and the NBV handler still executes its full growth loop (here 2 `grow1()`
calls with a `none` fetch). -/
theorem C5_counterexample_growth_despite_null_map :
    (rrt_find_path_handler none none).ran_rrt = true ∧
    (nbv_handler none 2 (fun _ => none) (fun _ => 0) 5 (fun _ => none)
      (fun _ => none)).grow_calls = 2 := by
  constructor
  · rfl
  · with_unfolding_all rfl

/-- Claim C5 amended: a failed or null octomap fetch does not abort either
handler — only the octomap assignment is skipped.  The planning handler runs
the tree growth regardless and reports whatever `rrt.run()` produced, and the
NBV handler performs its full iteration budget (shown here for runs where no
gain reaches the threshold).  No EnvironmentUnavailable outcome exists in the
code. -/
theorem C5_null_map_does_not_abort (run_result : Option (List Vec3))
    (max_iterations : ℕ) (created : ℕ → Option Vec3) (gain : Vec3 → ℚ)
    (threshold : ℚ) (bn : Option Vec3 → Option (List Vec3))
    (bnr : Vec3 → Option (List Vec3))
    (hno : ∀ k, k < max_iterations → ∀ p, created k = some p →
      gain p < threshold) :
    (rrt_find_path_handler none run_result).ran_rrt = true ∧
    (rrt_find_path_handler none run_result).assigned_octomap = false ∧
    (rrt_find_path_handler none run_result).success = run_result.isSome ∧
    (nbv_handler none max_iterations created gain threshold bn
      bnr).assigned_octomap = false ∧
    (nbv_handler none max_iterations created gain threshold bn
      bnr).grow_calls = max_iterations := by
  have h0 : ∀ k, k < max_iterations → ∀ p, created (0 + k) = some p →
      gain p < threshold := by
    intro k hk p hp
    exact hno k hk p (by rwa [Nat.zero_add] at hp)
  obtain ⟨nw, hloop⟩ := nbv_grow_loop_no_found created gain threshold
    max_iterations 0 ⟨none, ⟨0, 0, 0⟩, false⟩ none rfl h0
  refine ⟨rfl, rfl, rfl, ?_, ?_⟩ <;>
    · simp only [nbv_handler, hloop]
      cases bnr (((List.range max_iterations).filterMap
          (fun k => created (0 + k))).foldl
            (nbv_on_node_created gain threshold)
            ⟨none, ⟨0, 0, 0⟩, false⟩).best_point <;> simp

/-- The iteration-indexed node creations used to witness claims C6 and C7:
iteration 0 creates a node at (1,0,0), iteration 1 one at (2,0,0), iteration 2
one at (2,5,0), and later iterations create nothing.  With `gain p = p.x` the
gains seen are 1, 2, 2 — a strict rise and then a tie. -/
def C67created : ℕ → Option Vec3 := fun i =>
  if i = 0 then some ⟨1, 0, 0⟩
  else if i = 1 then some ⟨2, 0, 0⟩
  else if i = 2 then some ⟨2, 5, 0⟩
  else none

/-- Claim C6 counterexample: the code stops growth when a gain *equals*
`gain_of_interest_threshold` (the comparison is `gain >= threshold`), whereas
the claim says growth continues past nodes whose score does not *exceed* the
threshold.  With threshold 7 and a single node of gain exactly 7, the run
stops after 1 of its 3 iterations and reports sufficient gain, although
7 > 7 is false. -/
theorem C6_counterexample_stop_at_equal_gain :
    (nbv_handler (some ()) 3 (fun i => if i = 0 then some ⟨7, 0, 0⟩ else none)
        (fun p => p.x) 7 (fun _ => some [⟨0, 0, 0⟩, ⟨7, 0, 0⟩])
        (fun _ => none)).grow_calls = 1 ∧
    (nbv_handler (some ()) 3 (fun i => if i = 0 then some ⟨7, 0, 0⟩ else none)
        (fun p => p.x) 7 (fun _ => some [⟨0, 0, 0⟩, ⟨7, 0, 0⟩])
        (fun _ => none)).found_flag = true ∧
    ¬ ((7 : ℚ) > 7) := by
  refine ⟨?_, ?_, ?_⟩
  · with_unfolding_all rfl
  · with_unfolding_all rfl
  · with_unfolding_all decide

/-- Claim C6 amended: growth stops early at the first iteration whose newly
created node's score is at least (`>=`) `gain_of_interest_threshold`: that
iteration's `grow1()` call is the last one (j+1 calls in total when iteration
j triggers), the response reports sufficient gain and success, and the
returned waypoints are the conversion of the backtrack from that newest node;
growth before that point continues past nodes whose score is below the
threshold. -/
theorem C6_early_stop_at_gain_meeting_threshold (fetch : Option Octomap)
    (max_iterations : ℕ) (created : ℕ → Option Vec3) (gain : Vec3 → ℚ)
    (threshold : ℚ) (bn : Option Vec3 → Option (List Vec3))
    (bnr : Vec3 → Option (List Vec3)) (j : ℕ) (q : Vec3) (path : List Vec3)
    (hj : j < max_iterations)
    (hbefore : ∀ k, k < j → ∀ p, created k = some p → gain p < threshold)
    (hq : created j = some q) (hg : threshold ≤ gain q)
    (hback : bn (some q) = some path) :
    (nbv_handler fetch max_iterations created gain threshold bn
      bnr).grow_calls = j + 1 ∧
    (nbv_handler fetch max_iterations created gain threshold bn
      bnr).found_flag = true ∧
    (nbv_handler fetch max_iterations created gain threshold bn
      bnr).success = true ∧
    (nbv_handler fetch max_iterations created gain threshold bn
      bnr).waypoints = waypoints_to_geometry_msgs_points path ∧
    (nbv_handler fetch max_iterations created gain threshold bn
      bnr).fallback_target = none := by
  have h0 : ∀ k, k < j → ∀ p, created (0 + k) = some p → gain p < threshold := by
    intro k hk p hp
    exact hbefore k hk p (by rwa [Nat.zero_add] at hp)
  have hq0 : created (0 + j) = some q := by rwa [Nat.zero_add]
  obtain ⟨stf, hloop, _hstf⟩ := nbv_grow_loop_found created gain threshold j
    max_iterations 0 ⟨none, ⟨0, 0, 0⟩, false⟩ none q hj rfl h0 hq0 hg
  refine ⟨?_, ?_, ?_, ?_, ?_⟩ <;> simp [nbv_handler, hloop, hback]

/-- Claim C7: when the threshold is above every achievable gain (every created
node scores strictly below it), the NBV run executes all `max_iterations`
`grow1()` calls, reports no sufficient gain and no success, and falls back to
backtracking from the node nearest to the position of the single
highest-scoring node seen, ties resolved in favour of the first-seen node
(the decomposition `l1 ++ q :: l2` states exactly that: everything created
before `q` scores strictly below it, everything after at most it). -/
theorem C7_fallback_targets_first_seen_best (fetch : Option Octomap)
    (max_iterations : ℕ) (created : ℕ → Option Vec3) (gain : Vec3 → ℚ)
    (threshold : ℚ) (bn : Option Vec3 → Option (List Vec3))
    (bnr : Vec3 → Option (List Vec3)) (q : Vec3) (l1 l2 : List Vec3)
    (path : List Vec3)
    (hall : ∀ p ∈ nodes_created created max_iterations, gain p < threshold)
    (hdecomp : nodes_created created max_iterations = l1 ++ q :: l2)
    (h1 : ∀ p ∈ l1, gain p < gain q)
    (h2 : ∀ p ∈ l2, gain p ≤ gain q)
    (hback : bnr q = some path) :
    (nbv_handler fetch max_iterations created gain threshold bn
      bnr).grow_calls = max_iterations ∧
    (nbv_handler fetch max_iterations created gain threshold bn
      bnr).found_flag = false ∧
    (nbv_handler fetch max_iterations created gain threshold bn
      bnr).success = false ∧
    (nbv_handler fetch max_iterations created gain threshold bn
      bnr).fallback_target = some q ∧
    (nbv_handler fetch max_iterations created gain threshold bn
      bnr).waypoints = waypoints_to_geometry_msgs_points path := by
  have hlist : (List.range max_iterations).filterMap (fun k => created (0 + k))
      = nodes_created created max_iterations := by
    simp [nodes_created]
  have hno : ∀ k, k < max_iterations → ∀ p, created (0 + k) = some p →
      gain p < threshold := by
    intro k hk p hp
    exact hall p (mem_nodes_created.mpr ⟨k, hk, by rwa [Nat.zero_add] at hp⟩)
  obtain ⟨nw, hloop⟩ := nbv_grow_loop_no_found created gain threshold
    max_iterations 0 ⟨none, ⟨0, 0, 0⟩, false⟩ none rfl hno
  rw [hlist, hdecomp] at hloop
  have hbest := foldl_first_seen_max gain threshold q l1 l2
    ⟨none, ⟨0, 0, 0⟩, false⟩ h1 h2 (Or.inl rfl)
  simp only [List.foldl_append, List.foldl_cons] at hbest
  refine ⟨?_, ?_, ?_, ?_, ?_⟩ <;> simp [nbv_handler, hloop, hbest, hback]

/-- Witness for the C5 theorem: a null fetch with a failed run and a two
iteration NBV budget in which no node is created. -/
theorem C5_null_map_witness :
    (rrt_find_path_handler none none).ran_rrt = true ∧
    (rrt_find_path_handler none none).assigned_octomap = false ∧
    (rrt_find_path_handler none none).success
      = (none : Option (List Vec3)).isSome ∧
    (nbv_handler none 2 (fun _ => none) (fun _ => (0 : ℚ)) 5 (fun _ => none)
      (fun _ => none)).assigned_octomap = false ∧
    (nbv_handler none 2 (fun _ => none) (fun _ => (0 : ℚ)) 5 (fun _ => none)
      (fun _ => none)).grow_calls = 2 :=
  C5_null_map_does_not_abort none 2 (fun _ => none) (fun _ => (0 : ℚ)) 5
    (fun _ => none) (fun _ => none) (fun _k _hk _p hp => Option.noConfusion hp)

/-- Witness for the C6 theorem: gains 1 then 2, threshold 2 — the second
iteration's node meets the threshold exactly and growth stops there with its
backtrack in the response. -/
theorem C6_early_stop_witness :
    (nbv_handler (some ()) 3 C67created (fun p => p.x) 2
      (fun _ => some [⟨9, 9, 9⟩]) (fun _ => none)).grow_calls = 2 ∧
    (nbv_handler (some ()) 3 C67created (fun p => p.x) 2
      (fun _ => some [⟨9, 9, 9⟩]) (fun _ => none)).found_flag = true ∧
    (nbv_handler (some ()) 3 C67created (fun p => p.x) 2
      (fun _ => some [⟨9, 9, 9⟩]) (fun _ => none)).success = true ∧
    (nbv_handler (some ()) 3 C67created (fun p => p.x) 2
      (fun _ => some [⟨9, 9, 9⟩]) (fun _ => none)).waypoints
      = waypoints_to_geometry_msgs_points [⟨9, 9, 9⟩] ∧
    (nbv_handler (some ()) 3 C67created (fun p => p.x) 2
      (fun _ => some [⟨9, 9, 9⟩]) (fun _ => none)).fallback_target = none :=
  C6_early_stop_at_gain_meeting_threshold (some ()) 3 C67created
    (fun p => p.x) 2 (fun _ => some [⟨9, 9, 9⟩]) (fun _ => none) 1 ⟨2, 0, 0⟩
    [⟨9, 9, 9⟩] (by decide)
    (by
      intro k hk p hp
      have hk0 : k = 0 := by omega
      subst hk0
      simp [C67created] at hp
      subst hp
      with_unfolding_all decide)
    (by simp [C67created]) (by with_unfolding_all decide) rfl

/-- Witness for the C7 theorem: gains 1, 2, 2 with threshold 100 — all three
iterations run, no sufficient gain is reported, and the fallback targets the
node at (2,0,0), the first of the two gain-2 nodes. -/
theorem C7_fallback_witness :
    (nbv_handler none 3 C67created (fun p => p.x) 100 (fun _ => none)
      (fun _ => some [⟨4, 4, 4⟩])).grow_calls = 3 ∧
    (nbv_handler none 3 C67created (fun p => p.x) 100 (fun _ => none)
      (fun _ => some [⟨4, 4, 4⟩])).found_flag = false ∧
    (nbv_handler none 3 C67created (fun p => p.x) 100 (fun _ => none)
      (fun _ => some [⟨4, 4, 4⟩])).success = false ∧
    (nbv_handler none 3 C67created (fun p => p.x) 100 (fun _ => none)
      (fun _ => some [⟨4, 4, 4⟩])).fallback_target = some ⟨2, 0, 0⟩ ∧
    (nbv_handler none 3 C67created (fun p => p.x) 100 (fun _ => none)
      (fun _ => some [⟨4, 4, 4⟩])).waypoints
      = waypoints_to_geometry_msgs_points [⟨4, 4, 4⟩] :=
  C7_fallback_targets_first_seen_best none 3 C67created (fun p => p.x) 100
    (fun _ => none) (fun _ => some [⟨4, 4, 4⟩]) ⟨2, 0, 0⟩ [⟨1, 0, 0⟩]
    [⟨2, 5, 0⟩] [⟨4, 4, 4⟩]
    (by with_unfolding_all decide)
    (by with_unfolding_all decide)
    (by with_unfolding_all decide)
    (by with_unfolding_all decide)
    rfl

end MDI
